import Mathlib

/-!
# Verification of the coloring-studio job-orchestration core

This file gives a shallow embedding, in Lean 4, of the job-orchestration
subsystem of the repository (src/App.tsx together with the interfaces it
consumes), and proves or refutes the behavioural claims made about it.

Two models are developed:

* a functional model of the Retrying Job Executor (`generateImageSafe`) and
  of the handlers built on top of it (`handleRetryJob`, the per-job task of
  `handleRetryAllFailed`, `handleBatchColorize`, `handleBatchDecolorize`).
  The remote generation call is an opaque collaborator, so it is a parameter
  (`ExecEnv.gen`): for each job-parameter record and attempt index it yields
  an outcome (an image, a null response, or a thrown error message).  All
  observable side effects (log lines, waits, IndexedDB writes and deletes,
  in-memory list updates, the re-authentication side effect) are recorded as
  an ordered event trace;

* a small-step transition system for the Bounded Concurrency Runner
  (`runConcurrentTasks`), whose await points are interleaved with
  environment actions (a task settling, the user pressing Stop).
-/

set_option linter.unusedVariables false
set_option linter.unnecessarySeqFocus false
set_option linter.unnecessarySimpa false

namespace Coloring

/-! ## Data model (src/unnamed/part_001, the `types` module) -/

/-- `PrintSize` from the types module. -/
inductive PrintSize
  | square8x8
  | letter
  | portrait8x10
  | portrait6x9
  deriving DecidableEq, Repr

/-- `Resolution = '1k' | '2k' | '4k'`. -/
inductive Resolution
  | r1k
  | r2k
  | r4k
  deriving DecidableEq, Repr

/-- `ColorMode = 'bw' | 'color'`. -/
inductive ColorMode
  | bw
  | color
  deriving DecidableEq, Repr

/-- `FrameStyle` enum. -/
inductive FrameStyle
  | handDrawn
  | sketcher
  | simple
  | double
  | ornate
  deriving DecidableEq, Repr

/-- The `transformType` argument: `'colorize' | 'decolorize'`. -/
inductive TransformType
  | colorize
  | decolorize
  deriving DecidableEq, Repr

/-- `GeneratedImage` history entry. -/
structure GeneratedImage where
  id : String
  url : String
  prompt : String
  timestamp : Nat
  resolution : Resolution
  printSize : PrintSize
  deriving DecidableEq, Repr

/-- The parameter tuple passed by `generateImageSafe` to `generateSingleImage`
(the API key, palette and style-instruction context plumbing carries no
claim-relevant information and is absorbed into the opaque generation
function). -/
structure JobParams where
  prompt : String
  printSize : PrintSize
  seed : Nat
  style : String
  colorMode : ColorMode
  resolution : Resolution
  useFrame : Bool
  frameStyle : FrameStyle
  referenceImages : List String
  isEditing : Bool
  transformType : Option TransformType
  deriving DecidableEq, Repr

/-- The `jobConfig` snapshot stored inside a `FailedJob`: the job parameters
plus `config.selectedPaletteId`. -/
structure JobConfig where
  prompt : String
  printSize : PrintSize
  seed : Nat
  style : String
  colorMode : ColorMode
  resolution : Resolution
  useFrame : Bool
  frameStyle : FrameStyle
  referenceImages : List String
  isEditing : Bool
  transformType : Option TransformType
  selectedPaletteId : Option String
  deriving DecidableEq, Repr

/-- Build the persisted `jobConfig` from the call parameters, as the failed-job
persistence block of `generateImageSafe` does. -/
def jobConfigOf (p : JobParams) (pal : Option String) : JobConfig :=
  ⟨p.prompt, p.printSize, p.seed, p.style, p.colorMode, p.resolution,
   p.useFrame, p.frameStyle, p.referenceImages, p.isEditing, p.transformType, pal⟩

/-- `FailedJob` persisted record. -/
structure FailedJob where
  id : String
  timestamp : Nat
  error : String
  jobConfig : JobConfig
  deriving DecidableEq, Repr

/-- The slice of `GenerationConfig` read by the batch handlers. -/
structure GenerationConfig where
  model : String
  prompt : String
  style : String
  printSize : PrintSize
  colorMode : ColorMode
  resolution : Resolution
  batchCount : Nat
  useFrame : Bool
  frameStyle : FrameStyle
  selectedPaletteId : Option String
  deriving DecidableEq, Repr

/-! ## Substring matching (`String.prototype.includes`) -/

/-- Does the second list occur at the head of the first list? -/
def startsWithList : List Char → List Char → Bool
  | _, [] => true
  | [], _ :: _ => false
  | a :: as, b :: bs => a == b && startsWithList as bs

/-- Does the second list occur somewhere inside the first list? -/
def containsSubList : List Char → List Char → Bool
  | [], pat => pat.isEmpty
  | a :: as, pat => startsWithList (a :: as) pat || containsSubList as pat

/-- `s.includes(pat)` of JavaScript: substring occurrence. -/
def strContains (s pat : String) : Bool :=
  containsSubList s.data pat.data

/-- The rate-limit classification of `generateImageSafe`:
`errorMsg.includes("429") || errorMsg.includes("Too many requests")`. -/
def isRateLimitedMsg (msg : String) : Bool :=
  strContains msg "429" || strContains msg "Too many requests"

/-- The permission-denied classification of `generateImageSafe`:
`errorMsg.includes("Requested entity was not found") || errorMsg.includes("403")
 || errorMsg.includes("API key not valid")`. -/
def isPermissionMsg (msg : String) : Bool :=
  strContains msg "Requested entity was not found" || strContains msg "403" ||
    strContains msg "API key not valid"

/-! ## Observable events of the executor and its callers -/

/-- Log levels of `addLog`. -/
inductive LogLevel
  | info
  | success
  | error
  | warning
  deriving DecidableEq, Repr

/-- One observable side effect.  `persistFailedJob` stands for the paired
`saveFailedJobToDB` write and `setFailedJobs` prepend (they always occur
together in `generateImageSafe`); `dbDeleteFailedJob` is a
`deleteFailedJobFromDB` call alone; `memRemoveFailedJob` is a `setFailedJobs`
filter alone; `addImage` is the paired `saveImageToDB` write and `setImages`
prepend of `addImage`; `invalidateApiKey` is the permission-denied side effect
(`setHasApiKey(false)` plus the re-authentication error banner). -/
inductive AppEv
  | log (lvl : LogLevel) (msg : String)
  | callGenerate (p : JobParams)
  | wait (ms : Nat)
  | persistFailedJob (j : FailedJob)
  | dbDeleteFailedJob (jobId : String)
  | memRemoveFailedJob (jobId : String)
  | addImage (img : GeneratedImage)
  | invalidateApiKey
  deriving DecidableEq, Repr

/-- Outcome of one `generateSingleImage` call: a successful image, a null
result (response with no image part), or a thrown error with its message. -/
inductive GenOutcome
  | ok (url : String) (usedModel : String)
  | noImage
  | err (msg : String)
  deriving DecidableEq, Repr

/-- The value returned by a successful `generateImageSafe`. -/
structure GenResult where
  content : String
  usedModel : String
  deriving DecidableEq, Repr

/-- The ambient context of one executor run: the opaque generation call
(outcome per call parameters and attempt index), the cooperative stop flag as
read at the top of each attempt, the generated failed-job id and timestamp,
and `config.selectedPaletteId`. -/
structure ExecEnv where
  gen : JobParams → Nat → GenOutcome
  stop : Nat → Bool
  failId : Nat → String
  now : Nat
  selectedPaletteId : Option String

/-! ## The Retrying Job Executor (`generateImageSafe`, src/App.tsx 282-399) -/

/-- `MAX_RETRIES` constant of `generateImageSafe`. -/
def MAX_RETRIES : Nat := 3

/-- The action label chosen at the top of each attempt. -/
def actionLabel (isEditing : Bool) (transformType : Option TransformType) : String :=
  match transformType with
  | some TransformType.colorize => "Colorizing"
  | some TransformType.decolorize => "Decolorizing"
  | none => if isEditing then "Editing" else "Generating"

/-- The log entry emitted at the top of attempt `retries`: info on the first
attempt, warning on each retry. -/
def attemptLogEv (isEditing : Bool) (transformType : Option TransformType)
    (retries : Nat) : AppEv :=
  if retries == 0 then
    AppEv.log LogLevel.info (actionLabel isEditing transformType ++ "...")
  else
    AppEv.log LogLevel.warning
      ("Retry " ++ toString retries ++ "/" ++ toString MAX_RETRIES ++ ": " ++
        actionLabel isEditing transformType ++ "...")

/-- The guard of the failed-job persistence block:
`retries >= MAX_RETRIES || !errorMsg.includes("429")`. -/
def persistCond (errorMsg : String) (retries : Nat) : Bool :=
  decide (MAX_RETRIES ≤ retries) || !strContains errorMsg "429"

/-- The failed-job persistence block of `generateImageSafe`: executed on every
caught error that falls through the classification (i.e. everything except a
rate-limited error with retries remaining), guarded by `persistCond`. -/
def persistEvs (env : ExecEnv) (p : JobParams) (errorMsg : String)
    (retries : Nat) : List AppEv :=
  if persistCond errorMsg retries then
    [AppEv.persistFailedJob
       ⟨env.failId retries, env.now, errorMsg, jobConfigOf p env.selectedPaletteId⟩,
     AppEv.log LogLevel.warning "Saved failed job to Retry Queue."]
  else []

/-- The retry loop of `generateImageSafe`, from retry counter `retries`
onward.  `fuel` is a structural-recursion bound; the entry point supplies
`MAX_RETRIES + 1`, which dominates the loop's at most `MAX_RETRIES + 1`
iterations (the counter increases by one per iteration).  Returns the result
together with the emitted event trace. -/
def execFrom (env : ExecEnv) (p : JobParams) :
    Nat → Nat → Option GenResult × List AppEv
  | 0, _ => (none, [])
  | fuel + 1, retries =>
    if MAX_RETRIES < retries then (none, [])
    else if env.stop retries then (none, [])
    else
      let head : List AppEv :=
        [attemptLogEv p.isEditing p.transformType retries, AppEv.callGenerate p]
      match env.gen p retries with
      | GenOutcome.ok url usedModel => (some ⟨url, usedModel⟩, head)
      | GenOutcome.noImage => (none, head)
      | GenOutcome.err errorMsg =>
        if isRateLimitedMsg errorMsg then
          if retries < MAX_RETRIES then
            let waitTime := 10000 * (retries + 1)
            let rest := execFrom env p fuel (retries + 1)
            (rest.1,
             head ++
               [AppEv.log LogLevel.warning
                  ("Rate Limited (429). Waiting " ++ toString (waitTime / 1000) ++ "s..."),
                AppEv.wait waitTime] ++ rest.2)
          else
            (none,
             head ++
               [AppEv.log LogLevel.error
                  ("Failed after " ++ toString MAX_RETRIES ++ " retries due to rate limits.")] ++
               persistEvs env p errorMsg retries)
        else
          (none,
           head ++
             [AppEv.log LogLevel.error ("Generation failed: " ++ errorMsg)] ++
             (if isPermissionMsg errorMsg then [AppEv.invalidateApiKey] else []) ++
             persistEvs env p errorMsg retries)

/-- `generateImageSafe`: the retry loop entered with retry counter 0. -/
def generateImageSafe (env : ExecEnv) (p : JobParams) :
    Option GenResult × List AppEv :=
  execFrom env p (MAX_RETRIES + 1) 0

/-! ## Trace observations -/

/-- Number of `generateSingleImage` invocations in a trace. -/
def countCalls : List AppEv → Nat
  | [] => 0
  | AppEv.callGenerate _ :: evs => countCalls evs + 1
  | _ :: evs => countCalls evs

/-- Number of persisted `FailedJob` records in a trace. -/
def countPersist : List AppEv → Nat
  | [] => 0
  | AppEv.persistFailedJob _ :: evs => countPersist evs + 1
  | _ :: evs => countPersist evs

/-- Number of history entries added in a trace. -/
def countAddImage : List AppEv → Nat
  | [] => 0
  | AppEv.addImage _ :: evs => countAddImage evs + 1
  | _ :: evs => countAddImage evs

/-- Number of re-authentication side effects in a trace. -/
def countReauth : List AppEv → Nat
  | [] => 0
  | AppEv.invalidateApiKey :: evs => countReauth evs + 1
  | _ :: evs => countReauth evs

/-- Number of durable failed-job deletions in a trace. -/
def countDbDelete : List AppEv → Nat
  | [] => 0
  | AppEv.dbDeleteFailedJob _ :: evs => countDbDelete evs + 1
  | _ :: evs => countDbDelete evs

/-- The waits of a trace, in order, in milliseconds. -/
def waitsOf : List AppEv → List Nat
  | [] => []
  | AppEv.wait ms :: evs => ms :: waitsOf evs
  | _ :: evs => waitsOf evs

/-- The error fields of the persisted failed jobs of a trace, in order. -/
def persistedErrors : List AppEv → List String
  | [] => []
  | AppEv.persistFailedJob j :: evs => j.error :: persistedErrors evs
  | _ :: evs => persistedErrors evs

/-- Number of log entries at a given level in a trace. -/
def countLogsAt (lvl : LogLevel) : List AppEv → Nat
  | [] => 0
  | AppEv.log l _ :: evs => (if l == lvl then 1 else 0) + countLogsAt lvl evs
  | _ :: evs => countLogsAt lvl evs

/-- The parameter records of the `generateSingleImage` invocations of a
trace, in order. -/
def callParamsOf : List AppEv → List JobParams
  | [] => []
  | AppEv.callGenerate p :: evs => p :: callParamsOf evs
  | _ :: evs => callParamsOf evs

/-- The history entries added by a trace, in order. -/
def addedImages : List AppEv → List GeneratedImage
  | [] => []
  | AppEv.addImage img :: evs => img :: addedImages evs
  | _ :: evs => addedImages evs

/-- Replay of a trace against the in-memory `failedJobs` list: a persist
prepends (`setFailedJobs(prev => [failedJob, ...prev])`), a memory removal
filters by id (`setFailedJobs(prev => prev.filter(j => j.id !== id))`). -/
def applyFailedJobsMem : List AppEv → List FailedJob → List FailedJob
  | [], l => l
  | AppEv.persistFailedJob j :: evs, l => applyFailedJobsMem evs (j :: l)
  | AppEv.memRemoveFailedJob jobId :: evs, l =>
      applyFailedJobsMem evs (l.filter fun j => j.id != jobId)
  | _ :: evs, l => applyFailedJobsMem evs l

/-- Replay of a trace against the durable failed-job store: a persist adds the
record, a durable deletion removes the record with that key. -/
def applyFailedJobsDB : List AppEv → List FailedJob → List FailedJob
  | [], l => l
  | AppEv.persistFailedJob j :: evs, l => applyFailedJobsDB evs (j :: l)
  | AppEv.dbDeleteFailedJob jobId :: evs, l =>
      applyFailedJobsDB evs (l.filter fun j => j.id != jobId)
  | _ :: evs, l => applyFailedJobsDB evs l

/-- Replay of a trace against the in-memory history list
(`setImages(prev => [newImage, ...prev])`). -/
def applyImages : List AppEv → List GeneratedImage → List GeneratedImage
  | [], l => l
  | AppEv.addImage img :: evs, l => applyImages evs (img :: l)
  | _ :: evs, l => applyImages evs l

/-! ## Retry and batch handlers (src/App.tsx) -/

/-- The `JobParams` replayed verbatim from a failed job's frozen config. -/
def paramsOfConfig (cfg : JobConfig) : JobParams :=
  ⟨cfg.prompt, cfg.printSize, cfg.seed, cfg.style, cfg.colorMode, cfg.resolution,
   cfg.useFrame, cfg.frameStyle, cfg.referenceImages, cfg.isEditing, cfg.transformType⟩

/-- `handleRetryJob` (src/App.tsx 502-533): replays the frozen job config
through the Executor; on success adds one history entry (with a fresh random
id `imgId` and timestamp `now`), deletes the failed job from the durable
store, and filters it out of the in-memory list. -/
def handleRetryJob (env : ExecEnv) (imgId : String) (now : Nat)
    (job : FailedJob) : List AppEv :=
  let cfg := job.jobConfig
  let startLog := AppEv.log LogLevel.info
    ("Retrying job: " ++ String.mk (cfg.prompt.data.take 20) ++ "...")
  match generateImageSafe env (paramsOfConfig cfg) with
  | (some r, evs) =>
      startLog :: evs ++
        [AppEv.addImage ⟨imgId, r.content, cfg.prompt, now, cfg.resolution, cfg.printSize⟩,
         AppEv.dbDeleteFailedJob job.id,
         AppEv.memRemoveFailedJob job.id,
         AppEv.log LogLevel.success "Retry successful. Job removed from queue."]
  | (none, evs) => startLog :: evs

/-- The per-job task closure of `handleRetryAllFailed` (src/App.tsx 535-567):
checks the stop flag, replays the frozen config, and on success adds one
history entry and deletes the durable record (the in-memory list is refreshed
from storage only after the whole batch). -/
def retryAllTask (env : ExecEnv) (imgId : String) (now : Nat)
    (job : FailedJob) : List AppEv :=
  if env.stop 0 then [] else
  let cfg := job.jobConfig
  match generateImageSafe env (paramsOfConfig cfg) with
  | (some r, evs) =>
      evs ++
        [AppEv.addImage ⟨imgId, r.content, cfg.prompt, now, cfg.resolution, cfg.printSize⟩,
         AppEv.dbDeleteFailedJob job.id]
  | (none, evs) => evs

/-- The per-target task closure of `handleBatchColorize` (src/App.tsx
643-678): colorMode forced to `color`, transformType `colorize`, the target's
own image as sole reference, `isEditing = true`; on success the new history
entry's prompt carries the `"Colorized: "` first part. -/
def colorizeParams (cfg : GenerationConfig) (seed : Nat)
    (target : GeneratedImage) : JobParams :=
  ⟨target.prompt, cfg.printSize, seed, cfg.style, ColorMode.color,
   target.resolution, cfg.useFrame, cfg.frameStyle, [target.url], true,
   some TransformType.colorize⟩

def colorizeTask (cfg : GenerationConfig) (env : ExecEnv) (seed : Nat)
    (imgId : String) (now : Nat) (target : GeneratedImage) : List AppEv :=
  if env.stop 0 then [] else
  match generateImageSafe env (colorizeParams cfg seed target) with
  | (some r, evs) =>
      evs ++
        [AppEv.addImage
           ⟨imgId, r.content, "Colorized: " ++ target.prompt, now,
            target.resolution, target.printSize⟩]
  | (none, evs) => evs

/-- The per-target task closure of `handleBatchDecolorize` (src/App.tsx
680-715): the mirror of colorize, with colorMode forced to `bw`, transformType
`decolorize`, and the `"Line Art: "` first part on the new entry's prompt. -/
def decolorizeParams (cfg : GenerationConfig) (seed : Nat)
    (target : GeneratedImage) : JobParams :=
  ⟨target.prompt, cfg.printSize, seed, cfg.style, ColorMode.bw,
   target.resolution, cfg.useFrame, cfg.frameStyle, [target.url], true,
   some TransformType.decolorize⟩

def decolorizeTask (cfg : GenerationConfig) (env : ExecEnv) (seed : Nat)
    (imgId : String) (now : Nat) (target : GeneratedImage) : List AppEv :=
  if env.stop 0 then [] else
  match generateImageSafe env (decolorizeParams cfg seed target) with
  | (some r, evs) =>
      evs ++
        [AppEv.addImage
           ⟨imgId, r.content, "Line Art: " ++ target.prompt, now,
            target.resolution, target.printSize⟩]
  | (none, evs) => evs

/-- `handleBatchColorize`: guard on an empty selection, select the targets in
history order, and run one colorize task per target (through
`runConcurrentTasks`; the per-task traces are concatenated in task order —
the event multiset is unchanged by the runner's interleaving, which is what
the counting and per-event claims are about).  `seedOf` and `idOf` supply each
task's random seed and random history-entry id. -/
def handleBatchColorize (cfg : GenerationConfig) (images : List GeneratedImage)
    (selectedIds : List String) (env : ExecEnv)
    (seedOf : GeneratedImage → Nat) (idOf : GeneratedImage → String)
    (now : Nat) : List AppEv :=
  if selectedIds.isEmpty then [] else
  let targets := images.filter fun img => selectedIds.contains img.id
  AppEv.log LogLevel.info
      ("Colorizing " ++ toString selectedIds.length ++ " images...") ::
    targets.flatMap fun t => colorizeTask cfg env (seedOf t) (idOf t) now t

/-- `handleBatchDecolorize`: the mirror of `handleBatchColorize`. -/
def handleBatchDecolorize (cfg : GenerationConfig) (images : List GeneratedImage)
    (selectedIds : List String) (env : ExecEnv)
    (seedOf : GeneratedImage → Nat) (idOf : GeneratedImage → String)
    (now : Nat) : List AppEv :=
  if selectedIds.isEmpty then [] else
  let targets := images.filter fun img => selectedIds.contains img.id
  AppEv.log LogLevel.info
      ("Decolorizing " ++ toString selectedIds.length ++ " images...") ::
    targets.flatMap fun t => decolorizeTask cfg env (seedOf t) (idOf t) now t

/-! ## Concrete demonstration inputs (used by witness instances) -/

def c1demoParams : JobParams :=
  ⟨"a cosy bakery", PrintSize.square8x8, 42, "trung-default", ColorMode.bw,
   Resolution.r1k, false, FrameStyle.simple, [], false, none⟩

def c1demoEnv : ExecEnv :=
  ⟨fun _ _ => GenOutcome.err "Network error", fun _ => false, fun _ => "fail-1",
   1000, none⟩

def c5demoParams : JobParams :=
  ⟨"a red fox", PrintSize.letter, 7, "trung-default", ColorMode.bw,
   Resolution.r1k, false, FrameStyle.simple, [], false, none⟩

def c5demoEnv : ExecEnv :=
  ⟨fun _ _ => GenOutcome.err "429 Too many requests", fun _ => false,
   fun _ => "fail-5", 1000, none⟩

def c10demoParams : JobParams :=
  ⟨"a quiet garden", PrintSize.portrait8x10, 11, "trung-default", ColorMode.bw,
   Resolution.r1k, false, FrameStyle.simple, [], false, none⟩

def c10demoEnv : ExecEnv :=
  ⟨fun _ _ => GenOutcome.noImage, fun _ => false, fun _ => "fail-10", 1000, none⟩

def c7cexParams : JobParams :=
  ⟨"a small owl", PrintSize.square8x8, 3, "trung-default", ColorMode.bw,
   Resolution.r1k, false, FrameStyle.simple, [], false, none⟩

def c7cexEnv : ExecEnv :=
  ⟨fun _ _ => GenOutcome.err "403 Too many requests", fun _ => false,
   fun _ => "fail-7", 1000, none⟩

def c7demoParams : JobParams :=
  ⟨"a paper boat", PrintSize.square8x8, 4, "trung-default", ColorMode.bw,
   Resolution.r1k, false, FrameStyle.simple, [], false, none⟩

def c7demoEnv : ExecEnv :=
  ⟨fun _ _ => GenOutcome.err "403 API key not valid", fun _ => false,
   fun _ => "fail-7b", 1000, none⟩

def c2cexJob : FailedJob :=
  ⟨"fail-old", 500, "Network error",
   ⟨"a cosy bakery", PrintSize.square8x8, 42, "trung-default", ColorMode.bw,
    Resolution.r1k, false, FrameStyle.simple, [], false, none, none⟩⟩

def c2cexEnv : ExecEnv :=
  ⟨fun _ _ => GenOutcome.err "Network error", fun _ => false, fun _ => "fail-new",
   600, none⟩

def c2rlEnv : ExecEnv :=
  ⟨fun _ _ => GenOutcome.err "429 Too many requests", fun _ => false,
   fun _ => "fail-rl", 600, none⟩

def c8demoJob : FailedJob :=
  ⟨"fail-8", 500, "429 Too many requests",
   ⟨"a sleepy cat", PrintSize.portrait6x9, 271828, "trung-default", ColorMode.bw,
    Resolution.r2k, true, FrameStyle.ornate, ["data:image/png;base64,ref"], true,
    some TransformType.colorize, some "wc-1"⟩⟩

def c8demoEnv : ExecEnv :=
  ⟨fun _ _ => GenOutcome.ok "data:image/png;base64,out" "gemini-2.5-flash-image",
   fun _ => false, fun _ => "fail-8b", 700, none⟩

def c9demoCfg : GenerationConfig :=
  ⟨"gemini-2.5-flash-image", "", "trung-default", PrintSize.square8x8,
   ColorMode.bw, Resolution.r1k, 1, false, FrameStyle.simple, none⟩

def c9demoImage : GeneratedImage :=
  ⟨"img-9", "data:image/png;base64,aaa", "a calm lake", 100, Resolution.r1k,
   PrintSize.square8x8⟩

def c9demoEnv : ExecEnv :=
  ⟨fun _ _ => GenOutcome.ok "data:image/png;base64,bbb" "gemini-2.5-flash-image",
   fun _ => false, fun _ => "fail-9", 900, none⟩

/-! ## The Bounded Concurrency Runner (`runConcurrentTasks`, src/App.tsx 268-280)

The runner is

```
for (const task of tasks) {
    if (stopGenerationRef.current) break;
    await delay(1000);
    const p = Promise.resolve().then(() => task());
    const e = p.then(splice).catch(splice);
    executing.push(e);
    if (executing.length >= concurrency) await Promise.race(executing);
}
return Promise.all(executing);
```

modelled as a small-step transition system whose runner steps sit at the await
points, interleaved with environment steps: a started task settling (its
then-handler splices it out of `executing`), and the Stop button setting the
cooperative-cancellation flag.  `Promise.race(executing)` resolves exactly
when one of the promises in `executing` at the race call settles, so the race
phase records the completed count at entry and resolves once it has grown.
`Promise.all(executing)` resolves when every started, still-unsettled task has
settled. -/

/-- Position of the runner's control between await points. -/
inductive RPhase
  | loopTop
  | delaying
  | racing (c0 : Nat)
  | finishing
  | done
  deriving DecidableEq, Repr

/-- Runner state: tasks not yet started, tasks started, tasks started and not
yet settled (the `executing` set), tasks settled, the cooperative stop flag,
and the control position. -/
structure RState where
  pending : Nat
  started : Nat
  inflight : Nat
  completed : Nat
  flag : Bool
  phase : RPhase
  deriving DecidableEq, Repr

/-- Labels of the transition steps. -/
inductive RLab
  | cancel
  | settle
  | checkPass
  | checkStop
  | loopExit
  | pacedStart (ms : Nat)
  | raceResolve
  | allResolve
  deriving DecidableEq, Repr

/-- The state at the start of a run over `n` tasks: the flag has just been
reset to `false` by the calling handler. -/
def initState (n : Nat) : RState :=
  ⟨n, 0, 0, 0, false, RPhase.loopTop⟩

/-- One step of the runner or its environment, at concurrency ceiling `C`. -/
inductive Step (C : Nat) : RState → RLab → RState → Prop
  | cancel (s : RState) :
      Step C s RLab.cancel { s with flag := true }
  | settle (s : RState) (h : 0 < s.inflight) :
      Step C s RLab.settle
        { s with inflight := s.inflight - 1, completed := s.completed + 1 }
  | loopExit (s : RState) (hp : s.phase = RPhase.loopTop) (h0 : s.pending = 0) :
      Step C s RLab.loopExit { s with phase := RPhase.finishing }
  | checkStop (s : RState) (hp : s.phase = RPhase.loopTop) (h0 : 0 < s.pending)
      (hf : s.flag = true) :
      Step C s RLab.checkStop { s with phase := RPhase.finishing }
  | checkPass (s : RState) (hp : s.phase = RPhase.loopTop) (h0 : 0 < s.pending)
      (hf : s.flag = false) :
      Step C s RLab.checkPass { s with phase := RPhase.delaying }
  | pacedStartRace (s : RState) (hp : s.phase = RPhase.delaying)
      (h0 : 0 < s.pending) (hc : C ≤ s.inflight + 1) :
      Step C s (RLab.pacedStart 1000)
        { s with pending := s.pending - 1, started := s.started + 1,
                 inflight := s.inflight + 1, phase := RPhase.racing s.completed }
  | pacedStartFree (s : RState) (hp : s.phase = RPhase.delaying)
      (h0 : 0 < s.pending) (hc : s.inflight + 1 < C) :
      Step C s (RLab.pacedStart 1000)
        { s with pending := s.pending - 1, started := s.started + 1,
                 inflight := s.inflight + 1, phase := RPhase.loopTop }
  | raceResolve (s : RState) (c0 : Nat) (hp : s.phase = RPhase.racing c0)
      (hc : c0 < s.completed) :
      Step C s RLab.raceResolve { s with phase := RPhase.loopTop }
  | allResolve (s : RState) (hp : s.phase = RPhase.finishing)
      (h0 : s.inflight = 0) :
      Step C s RLab.allResolve { s with phase := RPhase.done }

/-- Reachability along steps. -/
inductive Reach (C : Nat) : RState → RState → Prop
  | refl (s : RState) : Reach C s s
  | tail {s t u : RState} {lab : RLab} (h : Reach C s t) (hs : Step C t lab u) :
      Reach C s u

/-- The concurrency-bound invariant of the runner: the `executing` set never
exceeds the ceiling, is strictly below it whenever the scheduling loop is
about to start another task, and during a race the completed count ties the
in-flight count to the ceiling. -/
def RInvBound (C : Nat) (s : RState) : Prop :=
  s.inflight ≤ C ∧
  ((s.phase = RPhase.loopTop ∨ s.phase = RPhase.delaying) → s.inflight < C) ∧
  (∀ c0, s.phase = RPhase.racing c0 → s.inflight + s.completed ≤ C + c0)

/-- Bookkeeping invariant: every started task is either in flight or settled,
and the runner's promise resolves only with an empty `executing` set. -/
def RInvAcc (s : RState) : Prop :=
  s.started = s.inflight + s.completed ∧
  (s.phase = RPhase.done → s.inflight = 0)

theorem Reach.trans {C : Nat} {s t u : RState} (h1 : Reach C s t)
    (h2 : Reach C t u) : Reach C s u := by
  induction h2 with
  | refl => exact h1
  | tail h hs ih => exact Reach.tail ih hs

theorem step_preserves_bound {C : Nat} {s t : RState} {lab : RLab}
    (hinv : RInvBound C s) (hs : Step C s lab t) : RInvBound C t := by
  obtain ⟨h1, h2, h3⟩ := hinv
  cases hs with
  | cancel => exact ⟨h1, h2, h3⟩
  | settle h =>
      refine ⟨?_, fun hp => ?_, fun c0 hp => ?_⟩
      · dsimp only
        omega
      · dsimp only at hp ⊢
        have := h2 hp
        omega
      · dsimp only at hp ⊢
        have := h3 c0 hp
        omega
  | loopExit hp h0 =>
      refine ⟨h1, fun hph => ?_, fun c0 hph => ?_⟩ <;> dsimp only at hph <;> simp_all
  | checkStop hp h0 hf =>
      refine ⟨h1, fun hph => ?_, fun c0 hph => ?_⟩ <;> dsimp only at hph <;> simp_all
  | checkPass hp h0 hf =>
      refine ⟨h1, fun hph => h2 (Or.inl hp), fun c0 hph => ?_⟩
      dsimp only at hph
      simp_all
  | pacedStartRace hp h0 hc =>
      have hlt : _ < C := h2 (Or.inr hp)
      refine ⟨?_, fun hph => ?_, fun c0 hph => ?_⟩
      · dsimp only
        omega
      · dsimp only at hph
        simp_all
      · dsimp only at hph ⊢
        have hc0 : _ = c0 := RPhase.racing.inj hph
        omega
  | pacedStartFree hp h0 hc =>
      have hlt : _ < C := h2 (Or.inr hp)
      refine ⟨?_, fun hph => ?_, fun c0 hph => ?_⟩
      · dsimp only
        omega
      · dsimp only
        omega
      · dsimp only at hph
        simp_all
  | raceResolve c0 hp hc =>
      have := h3 c0 hp
      refine ⟨h1, fun hph => ?_, fun c1 hph => ?_⟩
      · dsimp only
        omega
      · dsimp only at hph
        simp_all
  | allResolve hp h0 =>
      refine ⟨h1, fun hph => ?_, fun c0 hph => ?_⟩ <;> dsimp only at hph <;> simp_all

theorem step_preserves_acc {C : Nat} {s t : RState} {lab : RLab}
    (hinv : RInvAcc s) (hs : Step C s lab t) : RInvAcc t := by
  obtain ⟨h1, h2⟩ := hinv
  cases hs with
  | cancel => exact ⟨h1, h2⟩
  | settle h =>
      refine ⟨?_, fun hp => ?_⟩ <;> dsimp only at *
      · omega
      · simp_all
  | loopExit hp h0 =>
      refine ⟨h1, fun hph => ?_⟩
      dsimp only at hph
      simp_all
  | checkStop hp h0 hf =>
      refine ⟨h1, fun hph => ?_⟩
      dsimp only at hph
      simp_all
  | checkPass hp h0 hf =>
      refine ⟨h1, fun hph => ?_⟩
      dsimp only at hph
      simp_all
  | pacedStartRace hp h0 hc =>
      refine ⟨?_, fun hph => ?_⟩ <;> dsimp only at *
      · omega
      · simp_all
  | pacedStartFree hp h0 hc =>
      refine ⟨?_, fun hph => ?_⟩ <;> dsimp only at *
      · omega
      · simp_all
  | raceResolve c0 hp hc =>
      refine ⟨h1, fun hph => ?_⟩
      dsimp only at hph
      simp_all
  | allResolve hp h0 => exact ⟨h1, fun _ => h0⟩

theorem reach_preserves_bound {C : Nat} {s t : RState}
    (hinv : RInvBound C s) (h : Reach C s t) : RInvBound C t := by
  induction h with
  | refl => exact hinv
  | tail h hs ih => exact step_preserves_bound ih hs

theorem reach_preserves_acc {C : Nat} {s t : RState}
    (hinv : RInvAcc s) (h : Reach C s t) : RInvAcc t := by
  induction h with
  | refl => exact hinv
  | tail h hs ih => exact step_preserves_acc ih hs

theorem initState_bound {C n : Nat} (hC : 1 ≤ C) : RInvBound C (initState n) := by
  refine ⟨by simp [initState], fun _ => by simpa [initState] using hC,
    fun c0 h => by simp [initState] at h⟩

theorem initState_acc {n : Nat} : RInvAcc (initState n) := by
  exact ⟨by simp [initState], fun h => by simp [initState] at h⟩

/-- Once the stop flag is observed true, it stays true; any reachable state
keeps the started count within one of the count at flag-set time, the extra
one being possible only when the flag was set during the pacing delay of a
task whose cancellation check had already passed. -/
theorem cancelled_reach {C : Nat} {s t : RState} (hf : s.flag = true)
    (h : Reach C s t) :
    t.flag = true ∧
    (t.phase = RPhase.delaying → s.phase = RPhase.delaying ∧ t.started = s.started) ∧
    t.started ≤ s.started + (if s.phase = RPhase.delaying then 1 else 0) := by
  induction h with
  | refl => exact ⟨hf, fun hph => ⟨hph, rfl⟩, by omega⟩
  | tail h hs ih =>
      obtain ⟨ih1, ih2, ih3⟩ := ih
      cases hs with
      | cancel => exact ⟨rfl, ih2, ih3⟩
      | settle h => exact ⟨ih1, fun hph => ih2 hph, by dsimp only; omega⟩
      | loopExit hp h0 =>
          exact ⟨ih1, fun hph => by dsimp only at hph; simp_all, ih3⟩
      | checkStop hp h0 hfl =>
          exact ⟨ih1, fun hph => by dsimp only at hph; simp_all, ih3⟩
      | checkPass hp h0 hfl => simp_all
      | pacedStartRace hp h0 hc =>
          obtain ⟨hs1, hs2⟩ := ih2 hp
          refine ⟨ih1, fun hph => by dsimp only at hph; simp_all, ?_⟩
          rw [hs1] at ih3 ⊢
          simp only [if_pos rfl] at ih3 ⊢
          exact Nat.succ_le_succ (Nat.le_of_eq hs2)
      | pacedStartFree hp h0 hc =>
          obtain ⟨hs1, hs2⟩ := ih2 hp
          refine ⟨ih1, fun hph => by dsimp only at hph; simp_all, ?_⟩
          rw [hs1] at ih3 ⊢
          simp only [if_pos rfl] at ih3 ⊢
          exact Nat.succ_le_succ (Nat.le_of_eq hs2)
      | raceResolve c0 hp hc =>
          exact ⟨ih1, fun hph => by dsimp only at hph; simp_all, ih3⟩
      | allResolve hp h0 =>
          exact ⟨ih1, fun hph => by dsimp only at hph; simp_all, ih3⟩

/-! ## Claims about the Bounded Concurrency Runner -/

/-- C3, as amended: for every task list of length `n` and every concurrency
ceiling `C ≥ 1`, at no point during a run of `runConcurrentTasks` are more
than `C` started tasks simultaneously unresolved.  (As stated over every
ceiling the claim fails at the degenerate ceiling `C = 0`: see the
counterexample, where the runner still pushes one task before racing.) -/
theorem c3_bounded_concurrency {C n : Nat} {s : RState} (hC : 1 ≤ C)
    (h : Reach C (initState n) s) : s.inflight ≤ C :=
  (reach_preserves_bound (initState_bound hC) h).1

theorem c3_bounded_concurrency_witness :
    (1 : Nat) ≤ 2 ∧ RState.inflight ⟨0, 1, 1, 0, false, RPhase.loopTop⟩ ≤ 2 :=
  ⟨by decide,
   @c3_bounded_concurrency 2 1 ⟨0, 1, 1, 0, false, RPhase.loopTop⟩ (by decide)
     (Reach.tail
       (Reach.tail (Reach.refl (initState 1))
         (Step.checkPass (initState 1) rfl (by decide) rfl))
       (Step.pacedStartFree ⟨1, 0, 0, 0, false, RPhase.delaying⟩ rfl (by decide)
         (by decide)))⟩

/-- C3, as stated, is false at concurrency ceiling 0: on a one-task list the
runner reaches a state with one started, unresolved task, which exceeds the
ceiling (`executing.length >= concurrency` only gates via `Promise.race`
after the task has already been pushed). -/
theorem c3_counterexample :
    Reach 0 (initState 1) ⟨0, 1, 1, 0, false, RPhase.racing 0⟩ ∧
    0 < RState.inflight ⟨0, 1, 1, 0, false, RPhase.racing 0⟩ := by
  constructor
  · exact Reach.tail
      (Reach.tail (Reach.refl (initState 1))
        (Step.checkPass (initState 1) rfl (by decide) rfl))
      (Step.pacedStartRace ⟨1, 0, 0, 0, false, RPhase.delaying⟩ rfl (by decide)
        (by decide))
  · decide

/-- C4, as amended: once the cooperative-cancellation flag is set in a state
with `K` tasks started, at most one further task is ever started (the task
whose cancellation check had already passed and whose pacing delay was in
flight); if the flag is set while the runner is not inside a pacing delay, no
further task at all is started.  Every started task runs to completion rather
than being aborted, and the runner resolves only after all of them have
settled: in the `done` phase the `executing` set is empty and the settled
count equals the started count.  (As stated — no task beyond the `K` already
started is ever started — the claim is false: see the counterexample.) -/
theorem c4_cancellation {C n : Nat} {s t : RState}
    (hreach : Reach C (initState n) s) (hf : s.flag = true) (h : Reach C s t) :
    t.started ≤ s.started + 1 ∧
    (s.phase ≠ RPhase.delaying → t.started ≤ s.started) ∧
    (t.phase = RPhase.done → t.inflight = 0 ∧ t.completed = t.started) := by
  obtain ⟨h1, h2, h3⟩ := cancelled_reach hf h
  have hacc := reach_preserves_acc initState_acc (Reach.trans hreach h)
  refine ⟨?_, fun hnd => ?_, fun hdone => ?_⟩
  · by_cases hsp : s.phase = RPhase.delaying
    · simpa [hsp] using h3
    · simp only [if_neg hsp] at h3
      omega
  · simp only [if_neg hnd] at h3
    omega
  · obtain ⟨ha1, ha2⟩ := hacc
    have h0 := ha2 hdone
    exact ⟨h0, by omega⟩

theorem c4_cancellation_witness :
    RState.started ⟨1, 0, 0, 0, true, RPhase.loopTop⟩ ≤
      RState.started ⟨1, 0, 0, 0, true, RPhase.loopTop⟩ + 1 ∧
    (RState.phase ⟨1, 0, 0, 0, true, RPhase.loopTop⟩ ≠ RPhase.delaying →
      RState.started ⟨1, 0, 0, 0, true, RPhase.loopTop⟩ ≤
        RState.started ⟨1, 0, 0, 0, true, RPhase.loopTop⟩) ∧
    (RState.phase ⟨1, 0, 0, 0, true, RPhase.loopTop⟩ = RPhase.done →
      RState.inflight ⟨1, 0, 0, 0, true, RPhase.loopTop⟩ = 0 ∧
      RState.completed ⟨1, 0, 0, 0, true, RPhase.loopTop⟩ =
        RState.started ⟨1, 0, 0, 0, true, RPhase.loopTop⟩) :=
  @c4_cancellation 2 1 ⟨1, 0, 0, 0, true, RPhase.loopTop⟩
    ⟨1, 0, 0, 0, true, RPhase.loopTop⟩
    (Reach.tail (Reach.refl (initState 1)) (Step.cancel (initState 1)))
    rfl (Reach.refl _)

/-- C4, as stated, is false: the flag is checked before the 1000 ms pacing
delay, not immediately before the start.  Here the flag is set (by the Stop
button) while 0 tasks have started and the runner is inside the pacing delay
of the first task; that task still starts, so a task beyond the `K = 0`
already-started ones is started after cancellation was requested. -/
theorem c4_counterexample :
    Reach 2 (initState 1) ⟨1, 0, 0, 0, true, RPhase.delaying⟩ ∧
    RState.flag ⟨1, 0, 0, 0, true, RPhase.delaying⟩ = true ∧
    RState.started ⟨1, 0, 0, 0, true, RPhase.delaying⟩ = 0 ∧
    Reach 2 ⟨1, 0, 0, 0, true, RPhase.delaying⟩ ⟨0, 1, 1, 0, true, RPhase.loopTop⟩ ∧
    RState.started ⟨0, 1, 1, 0, true, RPhase.loopTop⟩ = 1 := by
  refine ⟨?_, rfl, rfl, ?_, rfl⟩
  · exact Reach.tail
      (Reach.tail (Reach.refl (initState 1))
        (Step.checkPass (initState 1) rfl (by decide) rfl))
      (Step.cancel ⟨1, 0, 0, 0, false, RPhase.delaying⟩)
  · exact Reach.tail (Reach.refl _)
      (Step.pacedStartFree ⟨1, 0, 0, 0, true, RPhase.delaying⟩ rfl (by decide)
        (by decide))

/-- C6: every step of the runner that starts a task is a paced start
carrying the unconditional fixed 1000 ms delay and departs from the
pacing-delay phase; and the pacing-delay phase is only ever entered by the
per-task cancellation check observing the flag unset (so every started
task, the very first included, is preceded by its check and then the fixed
1000 ms wait). -/
theorem c6_pacing {C : Nat} {s t : RState} {lab : RLab} (hs : Step C s lab t) :
    (t.started = s.started + 1 →
      lab = RLab.pacedStart 1000 ∧ s.phase = RPhase.delaying) ∧
    (t.phase = RPhase.delaying →
      s.phase = RPhase.delaying ∨
        (lab = RLab.checkPass ∧ s.phase = RPhase.loopTop ∧ s.flag = false)) := by
  cases hs with
  | cancel =>
      refine ⟨fun h => absurd h (by intro hh; dsimp only at hh; omega),
        fun h => Or.inl ?_⟩
      dsimp only at h
      exact h
  | settle hin =>
      refine ⟨fun h => absurd h (by intro hh; dsimp only at hh; omega),
        fun h => Or.inl ?_⟩
      dsimp only at h
      exact h
  | loopExit hp h0 =>
      refine ⟨fun h => absurd h (by intro hh; dsimp only at hh; omega), fun h => ?_⟩
      dsimp only at h
      exact absurd h (by simp)
  | checkStop hp h0 hf =>
      refine ⟨fun h => absurd h (by intro hh; dsimp only at hh; omega), fun h => ?_⟩
      dsimp only at h
      exact absurd h (by simp)
  | checkPass hp h0 hf =>
      exact ⟨fun h => absurd h (by intro hh; dsimp only at hh; omega),
        fun h => Or.inr ⟨rfl, hp, hf⟩⟩
  | pacedStartRace hp h0 hc =>
      refine ⟨fun h => ⟨rfl, hp⟩, fun h => ?_⟩
      dsimp only at h
      exact absurd h (by simp)
  | pacedStartFree hp h0 hc =>
      refine ⟨fun h => ⟨rfl, hp⟩, fun h => ?_⟩
      dsimp only at h
      exact absurd h (by simp)
  | raceResolve c0 hp hc =>
      refine ⟨fun h => absurd h (by intro hh; dsimp only at hh; omega), fun h => ?_⟩
      dsimp only at h
      exact absurd h (by simp)
  | allResolve hp h0 =>
      refine ⟨fun h => absurd h (by intro hh; dsimp only at hh; omega), fun h => ?_⟩
      dsimp only at h
      exact absurd h (by simp)

theorem c6_pacing_witness :
    (RState.started ⟨0, 1, 1, 0, false, RPhase.loopTop⟩ =
        RState.started ⟨1, 0, 0, 0, false, RPhase.delaying⟩ + 1 →
      RLab.pacedStart 1000 = RLab.pacedStart 1000 ∧
      RState.phase ⟨1, 0, 0, 0, false, RPhase.delaying⟩ = RPhase.delaying) ∧
    (RState.phase ⟨0, 1, 1, 0, false, RPhase.loopTop⟩ = RPhase.delaying →
      RState.phase ⟨1, 0, 0, 0, false, RPhase.delaying⟩ = RPhase.delaying ∨
        (RLab.pacedStart 1000 = RLab.checkPass ∧
         RState.phase ⟨1, 0, 0, 0, false, RPhase.delaying⟩ = RPhase.loopTop ∧
         RState.flag ⟨1, 0, 0, 0, false, RPhase.delaying⟩ = false)) :=
  @c6_pacing 2 ⟨1, 0, 0, 0, false, RPhase.delaying⟩
    ⟨0, 1, 1, 0, false, RPhase.loopTop⟩ (RLab.pacedStart 1000)
    (Step.pacedStartFree ⟨1, 0, 0, 0, false, RPhase.delaying⟩ rfl (by decide)
      (by decide))

/-! ## Trace bookkeeping lemmas -/

theorem countPersist_append (l1 l2 : List AppEv) :
    countPersist (l1 ++ l2) = countPersist l1 + countPersist l2 := by
  induction l1 with
  | nil => simp [countPersist]
  | cons e l ih => cases e <;> simp [countPersist, ih] <;> omega

theorem countPersist_attemptLog (e : Bool) (tt : Option TransformType)
    (r : Nat) (l : List AppEv) :
    countPersist (attemptLogEv e tt r :: l) = countPersist l := by
  unfold attemptLogEv
  split <;> simp [countPersist]

theorem not_contains_429 {msg : String} (h : isRateLimitedMsg msg = false) :
    strContains msg "429" = false := by
  unfold isRateLimitedMsg at h
  exact (Bool.or_eq_false_iff.mp h).1

theorem persistCond_of_ge {msg : String} {r : Nat} (h : MAX_RETRIES ≤ r) :
    persistCond msg r = true := by
  simp [persistCond, h]

theorem persistCond_of_other {msg : String} (r : Nat)
    (h : isRateLimitedMsg msg = false) : persistCond msg r = true := by
  simp [persistCond, not_contains_429 h]

/-! ## Behaviour of a single executor attempt -/

/-- A successful generation on attempt `retries = 0` returns the content and
model with only the attempt log and the call in the trace. -/
theorem execSuccess (env : ExecEnv) (p : JobParams) (url um : String)
    (hgen : env.gen p 0 = GenOutcome.ok url um) (hstop : env.stop 0 = false) :
    generateImageSafe env p =
      (some ⟨url, um⟩,
       [AppEv.log LogLevel.info (actionLabel p.isEditing p.transformType ++ "..."),
        AppEv.callGenerate p]) := by
  simp [generateImageSafe, execFrom, hgen, hstop, attemptLogEv, MAX_RETRIES]

/-- A null generation result on the first attempt breaks out of the loop at
once: result `none`, and a trace holding only the info log and the call. -/
theorem execNoImage (env : ExecEnv) (p : JobParams)
    (hgen : env.gen p 0 = GenOutcome.noImage) (hstop : env.stop 0 = false) :
    generateImageSafe env p =
      (none,
       [AppEv.log LogLevel.info (actionLabel p.isEditing p.transformType ++ "..."),
        AppEv.callGenerate p]) := by
  simp [generateImageSafe, execFrom, hgen, hstop, attemptLogEv, MAX_RETRIES]

/-- A first-attempt error that is not rate-limit-classified is terminal: the
error is logged, the permission side effect fires when the message matches,
and exactly one failed job is persisted. -/
theorem execOtherError (env : ExecEnv) (p : JobParams) (msg : String)
    (hgen : env.gen p 0 = GenOutcome.err msg) (hstop : env.stop 0 = false)
    (hrl : isRateLimitedMsg msg = false) :
    generateImageSafe env p =
      (none,
       [AppEv.log LogLevel.info (actionLabel p.isEditing p.transformType ++ "..."),
        AppEv.callGenerate p,
        AppEv.log LogLevel.error ("Generation failed: " ++ msg)] ++
       (if isPermissionMsg msg then [AppEv.invalidateApiKey] else []) ++
       [AppEv.persistFailedJob
          ⟨env.failId 0, env.now, msg, jobConfigOf p env.selectedPaletteId⟩,
        AppEv.log LogLevel.warning "Saved failed job to Retry Queue."]) := by
  simp [generateImageSafe, execFrom, hgen, hstop, hrl, attemptLogEv, persistEvs,
    persistCond_of_other 0 hrl, MAX_RETRIES]

/-- A generation call that throws a rate-limit-classified message on all four
attempts exhausts the retries: the executor returns null, having persisted
exactly one failed job and deleted nothing. -/
theorem execRateLimitCounts (env : ExecEnv) (p : JobParams) (msg : String)
    (hgen0 : env.gen p 0 = GenOutcome.err msg)
    (hgen1 : env.gen p 1 = GenOutcome.err msg)
    (hgen2 : env.gen p 2 = GenOutcome.err msg)
    (hgen3 : env.gen p 3 = GenOutcome.err msg)
    (hstop0 : env.stop 0 = false) (hstop1 : env.stop 1 = false)
    (hstop2 : env.stop 2 = false) (hstop3 : env.stop 3 = false)
    (hrl : isRateLimitedMsg msg = true) :
    (generateImageSafe env p).1 = none ∧
    countPersist (generateImageSafe env p).2 = 1 ∧
    countDbDelete (generateImageSafe env p).2 = 0 := by
  have hpc : persistCond msg 3 = true := @persistCond_of_ge msg 3 (by decide)
  refine ⟨?_, ?_, ?_⟩ <;>
    simp [generateImageSafe, execFrom, hgen0, hgen1, hgen2, hgen3, hstop0,
      hstop1, hstop2, hstop3, hrl, attemptLogEv, persistEvs, hpc, countPersist,
      countDbDelete, MAX_RETRIES]

/-! ## Claims about the Retrying Job Executor -/

/-- C1: within the executor's retry loop, an iteration whose generation call
throws: if the error is rate-limit-classified and retries remain, the
iteration persists no failed job (the run's persist count is exactly the
count contributed by the remaining iterations); otherwise — rate-limited
with the counter at the maximum, or any non-rate-limit error on its first
occurrence — the loop terminates having persisted exactly one failed job. -/
theorem c1_ratelimit_persistence (env : ExecEnv) (p : JobParams) (msg : String)
    (f r : Nat) (hr : r ≤ MAX_RETRIES) (hgen : env.gen p r = GenOutcome.err msg)
    (hstop : env.stop r = false) :
    countPersist (execFrom env p (f + 1) r).2 =
      (if isRateLimitedMsg msg = true ∧ r < MAX_RETRIES then
        countPersist (execFrom env p f (r + 1)).2
      else 1) := by
  have hnr : ¬ MAX_RETRIES < r := Nat.not_lt.mpr hr
  by_cases hrl : isRateLimitedMsg msg = true
  · by_cases hlt : r < MAX_RETRIES
    · simp [execFrom, hnr, hstop, hgen, hrl, hlt, countPersist_append,
        countPersist_attemptLog, countPersist]
    · have hge : MAX_RETRIES ≤ r := Nat.not_lt.mp hlt
      simp [execFrom, hnr, hstop, hgen, hrl, hlt, persistEvs,
        persistCond_of_ge hge, countPersist_append, countPersist_attemptLog,
        countPersist]
  · have hrl' : isRateLimitedMsg msg = false := Bool.eq_false_iff.mpr hrl
    by_cases hp : isPermissionMsg msg = true
    · simp [execFrom, hnr, hstop, hgen, hrl', hp, persistEvs,
        persistCond_of_other r hrl', countPersist_append,
        countPersist_attemptLog, countPersist]
    · have hp' : isPermissionMsg msg = false := Bool.eq_false_iff.mpr hp
      simp [execFrom, hnr, hstop, hgen, hrl', hp', persistEvs,
        persistCond_of_other r hrl', countPersist_append,
        countPersist_attemptLog, countPersist]

theorem c1_ratelimit_persistence_witness :
    (0 : Nat) ≤ MAX_RETRIES ∧
    countPersist (execFrom c1demoEnv c1demoParams (3 + 1) 0).2 =
      (if isRateLimitedMsg "Network error" = true ∧ 0 < MAX_RETRIES then
        countPersist (execFrom c1demoEnv c1demoParams 3 (0 + 1)).2
      else 1) :=
  ⟨by decide,
   c1_ratelimit_persistence c1demoEnv c1demoParams "Network error" 3 0
     (by decide) rfl rfl⟩

/-- C5: a generation call that throws a rate-limit-classified message on all
four attempts makes exactly 4 calls (1 initial + 3 retries), waits
`10000 * (retryCounter + 1)` milliseconds before each retry (10 s, 20 s,
30 s, in order), persists exactly one failed job whose error field is the
thrown message verbatim, and returns null. -/
theorem c5_ratelimit_schedule (env : ExecEnv) (p : JobParams) (msg : String)
    (hgen0 : env.gen p 0 = GenOutcome.err msg)
    (hgen1 : env.gen p 1 = GenOutcome.err msg)
    (hgen2 : env.gen p 2 = GenOutcome.err msg)
    (hgen3 : env.gen p 3 = GenOutcome.err msg)
    (hstop0 : env.stop 0 = false) (hstop1 : env.stop 1 = false)
    (hstop2 : env.stop 2 = false) (hstop3 : env.stop 3 = false)
    (hrl : isRateLimitedMsg msg = true) :
    (generateImageSafe env p).1 = none ∧
    countCalls (generateImageSafe env p).2 = 4 ∧
    waitsOf (generateImageSafe env p).2 = [10000, 20000, 30000] ∧
    persistedErrors (generateImageSafe env p).2 = [msg] := by
  have hpc : persistCond msg 3 = true := @persistCond_of_ge msg 3 (by decide)
  refine ⟨?_, ?_, ?_, ?_⟩ <;>
    simp [generateImageSafe, execFrom, hgen0, hgen1, hgen2, hgen3, hstop0,
      hstop1, hstop2, hstop3, hrl, attemptLogEv, persistEvs, hpc, countCalls,
      waitsOf, persistedErrors, MAX_RETRIES]

theorem c5_ratelimit_schedule_witness :
    isRateLimitedMsg "429 Too many requests" = true ∧
    ((generateImageSafe c5demoEnv c5demoParams).1 = none ∧
     countCalls (generateImageSafe c5demoEnv c5demoParams).2 = 4 ∧
     waitsOf (generateImageSafe c5demoEnv c5demoParams).2 = [10000, 20000, 30000] ∧
     persistedErrors (generateImageSafe c5demoEnv c5demoParams).2 =
       ["429 Too many requests"]) :=
  ⟨by decide,
   c5_ratelimit_schedule c5demoEnv c5demoParams "429 Too many requests"
     rfl rfl rfl rfl rfl rfl rfl rfl (by decide)⟩

/-- C10: a generation call that resolves to null (no image part) without
throwing makes the executor break out of its loop at once and return null:
exactly one call, no retry, no failed job persisted, no history entry added,
and no error- or warning-level log entry — only the initial info log. -/
theorem c10_null_result (env : ExecEnv) (p : JobParams)
    (hgen : env.gen p 0 = GenOutcome.noImage) (hstop : env.stop 0 = false) :
    generateImageSafe env p =
      (none,
       [AppEv.log LogLevel.info (actionLabel p.isEditing p.transformType ++ "..."),
        AppEv.callGenerate p]) ∧
    countCalls (generateImageSafe env p).2 = 1 ∧
    countPersist (generateImageSafe env p).2 = 0 ∧
    countAddImage (generateImageSafe env p).2 = 0 ∧
    countLogsAt LogLevel.error (generateImageSafe env p).2 = 0 ∧
    countLogsAt LogLevel.warning (generateImageSafe env p).2 = 0 := by
  have h := execNoImage env p hgen hstop
  rw [h]
  refine ⟨rfl, ?_, ?_, ?_, ?_, ?_⟩ <;>
    simp [countCalls, countPersist, countAddImage, countLogsAt]

theorem c10_null_result_witness :
    generateImageSafe c10demoEnv c10demoParams =
      (none,
       [AppEv.log LogLevel.info
          (actionLabel c10demoParams.isEditing c10demoParams.transformType ++ "..."),
        AppEv.callGenerate c10demoParams]) ∧
    countCalls (generateImageSafe c10demoEnv c10demoParams).2 = 1 ∧
    countPersist (generateImageSafe c10demoEnv c10demoParams).2 = 0 ∧
    countAddImage (generateImageSafe c10demoEnv c10demoParams).2 = 0 ∧
    countLogsAt LogLevel.error (generateImageSafe c10demoEnv c10demoParams).2 = 0 ∧
    countLogsAt LogLevel.warning (generateImageSafe c10demoEnv c10demoParams).2 = 0 :=
  c10_null_result c10demoEnv c10demoParams rfl rfl

/-- C7, as stated, is false: the rate-limit classification is tested first,
so an error message containing "403" but also "Too many requests" is treated
as rate-limited — the executor retries (4 calls instead of the claimed single
attempt) and never fires the re-authentication side effect. -/
theorem c7_counterexample :
    isPermissionMsg "403 Too many requests" = true ∧
    countCalls (generateImageSafe c7cexEnv c7cexParams).2 = 4 ∧
    countReauth (generateImageSafe c7cexEnv c7cexParams).2 = 0 :=
  ⟨by decide, by decide, by decide⟩

/-- C7, as amended: for a thrown error whose message matches a permission
substring and is **not** rate-limit-classified (contains neither "429" nor
"Too many requests"), exactly one attempt is made, exactly one failed job is
persisted immediately with the message verbatim, and the re-authentication
side effect fires exactly once. -/
theorem c7_permission_denied (env : ExecEnv) (p : JobParams) (msg : String)
    (hgen : env.gen p 0 = GenOutcome.err msg) (hstop : env.stop 0 = false)
    (hperm : isPermissionMsg msg = true) (hrl : isRateLimitedMsg msg = false) :
    countCalls (generateImageSafe env p).2 = 1 ∧
    countPersist (generateImageSafe env p).2 = 1 ∧
    countReauth (generateImageSafe env p).2 = 1 ∧
    persistedErrors (generateImageSafe env p).2 = [msg] := by
  have h := execOtherError env p msg hgen hstop hrl
  rw [h]
  refine ⟨?_, ?_, ?_, ?_⟩ <;>
    simp [hperm, countCalls, countPersist, countReauth, persistedErrors]

theorem c7_permission_denied_witness :
    (isPermissionMsg "403 API key not valid" = true ∧
     isRateLimitedMsg "403 API key not valid" = false) ∧
    (countCalls (generateImageSafe c7demoEnv c7demoParams).2 = 1 ∧
     countPersist (generateImageSafe c7demoEnv c7demoParams).2 = 1 ∧
     countReauth (generateImageSafe c7demoEnv c7demoParams).2 = 1 ∧
     persistedErrors (generateImageSafe c7demoEnv c7demoParams).2 =
       ["403 API key not valid"]) :=
  ⟨⟨by decide, by decide⟩,
   c7_permission_denied c7demoEnv c7demoParams "403 API key not valid"
     rfl rfl (by decide) (by decide)⟩

/-- C2, as stated, is false: replaying a failed job through Retry-one (or a
Retry-all task) routes through `generateImageSafe`, whose terminal
persistence block runs on the repeat failure, so a **new** FailedJob record
is written to durable storage (and the original is not deleted). -/
theorem c2_counterexample :
    countPersist (handleRetryJob c2cexEnv "img-1" 600 c2cexJob) = 1 ∧
    countDbDelete (handleRetryJob c2cexEnv "img-1" 600 c2cexJob) = 0 ∧
    countPersist (retryAllTask c2cexEnv "img-2" 600 c2cexJob) = 1 :=
  ⟨by decide, by decide, by decide⟩

/-- C2, as amended: for every failed job replayed through Retry-one
(`handleRetryJob`) or a Retry-all task, if the retried generation fails
terminally again — whether immediately, with an error not classified
rate-limited (first conjunct), or by rate-limit exhaustion, with a
rate-limit-classified error thrown on all four attempts (second conjunct) —
the Executor persists exactly one new FailedJob record to durable storage,
and the handlers delete nothing (the original record stays). -/
theorem c2_retry_repeat_failure (env : ExecEnv) (imgId : String) (now : Nat)
    (job : FailedJob) (msg : String) :
    (env.gen (paramsOfConfig job.jobConfig) 0 = GenOutcome.err msg →
     env.stop 0 = false → isRateLimitedMsg msg = false →
     countPersist (handleRetryJob env imgId now job) = 1 ∧
     countDbDelete (handleRetryJob env imgId now job) = 0 ∧
     countPersist (retryAllTask env imgId now job) = 1 ∧
     countDbDelete (retryAllTask env imgId now job) = 0) ∧
    ((∀ r, r ≤ MAX_RETRIES →
        env.gen (paramsOfConfig job.jobConfig) r = GenOutcome.err msg) →
     (∀ r, r ≤ MAX_RETRIES → env.stop r = false) →
     isRateLimitedMsg msg = true →
     countPersist (handleRetryJob env imgId now job) = 1 ∧
     countDbDelete (handleRetryJob env imgId now job) = 0 ∧
     countPersist (retryAllTask env imgId now job) = 1 ∧
     countDbDelete (retryAllTask env imgId now job) = 0) := by
  constructor
  · intro hgen hstop hrl
    have h := execOtherError env (paramsOfConfig job.jobConfig) msg hgen hstop hrl
    by_cases hp : isPermissionMsg msg = true
    · refine ⟨?_, ?_, ?_, ?_⟩ <;>
        simp [handleRetryJob, retryAllTask, h, hp, hstop, countPersist, countDbDelete]
    · have hp' : isPermissionMsg msg = false := Bool.eq_false_iff.mpr hp
      refine ⟨?_, ?_, ?_, ?_⟩ <;>
        simp [handleRetryJob, retryAllTask, h, hp', hstop, countPersist, countDbDelete]
  · intro hgens hstops hrl
    obtain ⟨hres, hcnt, hdel⟩ :=
      execRateLimitCounts env (paramsOfConfig job.jobConfig) msg
        (hgens 0 (by decide)) (hgens 1 (by decide)) (hgens 2 (by decide))
        (hgens 3 (by decide)) (hstops 0 (by decide)) (hstops 1 (by decide))
        (hstops 2 (by decide)) (hstops 3 (by decide)) hrl
    cases hpair : generateImageSafe env (paramsOfConfig job.jobConfig) with
    | mk res evs =>
        rw [hpair] at hres hcnt hdel
        dsimp only at hres hcnt hdel
        subst hres
        refine ⟨?_, ?_, ?_, ?_⟩ <;>
          simp [handleRetryJob, retryAllTask, hpair, hstops 0 (by decide),
            countPersist, countDbDelete, hcnt, hdel]

theorem c2_retry_repeat_failure_witness :
    (countPersist (handleRetryJob c2cexEnv "img-3" 600 c2cexJob) = 1 ∧
     countDbDelete (handleRetryJob c2cexEnv "img-3" 600 c2cexJob) = 0 ∧
     countPersist (retryAllTask c2cexEnv "img-3" 600 c2cexJob) = 1 ∧
     countDbDelete (retryAllTask c2cexEnv "img-3" 600 c2cexJob) = 0) ∧
    (countPersist (handleRetryJob c2rlEnv "img-4" 600 c2cexJob) = 1 ∧
     countDbDelete (handleRetryJob c2rlEnv "img-4" 600 c2cexJob) = 0 ∧
     countPersist (retryAllTask c2rlEnv "img-4" 600 c2cexJob) = 1 ∧
     countDbDelete (retryAllTask c2rlEnv "img-4" 600 c2cexJob) = 0) :=
  ⟨(c2_retry_repeat_failure c2cexEnv "img-3" 600 c2cexJob "Network error").1
     rfl rfl (by decide),
   (c2_retry_repeat_failure c2rlEnv "img-4" 600 c2cexJob "429 Too many requests").2
     (fun r hr => rfl) (fun r hr => rfl) (by decide)⟩

/-- C8: Retry-one on a failed job with a succeeding generation function
removes that job from the durable store and from the in-memory failed-jobs
list, adds exactly one new history entry (built from the frozen config), and
the single generation call is made with the failed job's original stored
seed. -/
theorem c8_retry_success (env : ExecEnv) (imgId : String) (now : Nat)
    (job : FailedJob) (url um : String)
    (hgen : env.gen (paramsOfConfig job.jobConfig) 0 = GenOutcome.ok url um)
    (hstop : env.stop 0 = false)
    (fjs : List FailedJob) (imgs : List GeneratedImage) :
    applyFailedJobsMem (handleRetryJob env imgId now job) fjs =
      fjs.filter (fun j => j.id != job.id) ∧
    applyFailedJobsDB (handleRetryJob env imgId now job) fjs =
      fjs.filter (fun j => j.id != job.id) ∧
    countAddImage (handleRetryJob env imgId now job) = 1 ∧
    applyImages (handleRetryJob env imgId now job) imgs =
      ⟨imgId, url, job.jobConfig.prompt, now, job.jobConfig.resolution,
       job.jobConfig.printSize⟩ :: imgs ∧
    callParamsOf (handleRetryJob env imgId now job) =
      [paramsOfConfig job.jobConfig] ∧
    (paramsOfConfig job.jobConfig).seed = job.jobConfig.seed := by
  have h := execSuccess env (paramsOfConfig job.jobConfig) url um hgen hstop
  refine ⟨?_, ?_, ?_, ?_, ?_, rfl⟩ <;>
    simp [handleRetryJob, h, applyFailedJobsMem, applyFailedJobsDB,
      countAddImage, applyImages, callParamsOf]

theorem c8_retry_success_witness :
    applyFailedJobsMem (handleRetryJob c8demoEnv "img-new" 700 c8demoJob)
        [c8demoJob] =
      [c8demoJob].filter (fun j => j.id != c8demoJob.id) ∧
    applyFailedJobsDB (handleRetryJob c8demoEnv "img-new" 700 c8demoJob)
        [c8demoJob] =
      [c8demoJob].filter (fun j => j.id != c8demoJob.id) ∧
    countAddImage (handleRetryJob c8demoEnv "img-new" 700 c8demoJob) = 1 ∧
    applyImages (handleRetryJob c8demoEnv "img-new" 700 c8demoJob) [] =
      ⟨"img-new", "data:image/png;base64,out", c8demoJob.jobConfig.prompt, 700,
       c8demoJob.jobConfig.resolution, c8demoJob.jobConfig.printSize⟩ :: [] ∧
    callParamsOf (handleRetryJob c8demoEnv "img-new" 700 c8demoJob) =
      [paramsOfConfig c8demoJob.jobConfig] ∧
    (paramsOfConfig c8demoJob.jobConfig).seed = c8demoJob.jobConfig.seed :=
  c8_retry_success c8demoEnv "img-new" 700 c8demoJob
    "data:image/png;base64,out" "gemini-2.5-flash-image" rfl rfl [c8demoJob] []

/-! ## Claims about the batch colorize / decolorize planners -/

theorem countAddImage_append (l1 l2 : List AppEv) :
    countAddImage (l1 ++ l2) = countAddImage l1 + countAddImage l2 := by
  induction l1 with
  | nil => simp [countAddImage]
  | cons e l ih => cases e <;> simp [countAddImage, ih] <;> omega

theorem addedImages_append (l1 l2 : List AppEv) :
    addedImages (l1 ++ l2) = addedImages l1 ++ addedImages l2 := by
  induction l1 with
  | nil => simp [addedImages]
  | cons e l ih => cases e <;> simp [addedImages, ih]

theorem callParamsOf_append (l1 l2 : List AppEv) :
    callParamsOf (l1 ++ l2) = callParamsOf l1 ++ callParamsOf l2 := by
  induction l1 with
  | nil => simp [callParamsOf]
  | cons e l ih => cases e <;> simp [callParamsOf, ih]

/-- One colorize task under a succeeding generation function: the info log,
one call with the colorize-forced parameters, and one new history entry whose
prompt carries the "Colorized: " front matter. -/
theorem colorizeTask_success (cfg : GenerationConfig) (env : ExecEnv)
    (seed : Nat) (imgId : String) (now : Nat) (t : GeneratedImage)
    (url um : String)
    (hgen : env.gen (colorizeParams cfg seed t) 0 = GenOutcome.ok url um)
    (hstop : env.stop 0 = false) :
    colorizeTask cfg env seed imgId now t =
      [AppEv.log LogLevel.info
         (actionLabel true (some TransformType.colorize) ++ "..."),
       AppEv.callGenerate (colorizeParams cfg seed t),
       AppEv.addImage
         ⟨imgId, url, "Colorized: " ++ t.prompt, now, t.resolution,
          t.printSize⟩] := by
  have h := execSuccess env (colorizeParams cfg seed t) url um hgen hstop
  simp only [colorizeParams] at h
  simp [colorizeTask, colorizeParams, h, hstop]

/-- One decolorize task under a succeeding generation function: the mirror of
`colorizeTask_success` with bw-forced parameters and "Line Art: ". -/
theorem decolorizeTask_success (cfg : GenerationConfig) (env : ExecEnv)
    (seed : Nat) (imgId : String) (now : Nat) (t : GeneratedImage)
    (url um : String)
    (hgen : env.gen (decolorizeParams cfg seed t) 0 = GenOutcome.ok url um)
    (hstop : env.stop 0 = false) :
    decolorizeTask cfg env seed imgId now t =
      [AppEv.log LogLevel.info
         (actionLabel true (some TransformType.decolorize) ++ "..."),
       AppEv.callGenerate (decolorizeParams cfg seed t),
       AppEv.addImage
         ⟨imgId, url, "Line Art: " ++ t.prompt, now, t.resolution,
          t.printSize⟩] := by
  have h := execSuccess env (decolorizeParams cfg seed t) url um hgen hstop
  simp only [decolorizeParams] at h
  simp [decolorizeTask, decolorizeParams, h, hstop]

theorem colorize_flat (cfg : GenerationConfig) (env : ExecEnv)
    (seedOf : GeneratedImage → Nat) (idOf : GeneratedImage → String) (now : Nat)
    (url um : JobParams → String)
    (hgen : ∀ q, env.gen q 0 = GenOutcome.ok (url q) (um q))
    (hstop : env.stop 0 = false) (ts : List GeneratedImage) :
    countAddImage
        (ts.flatMap fun t => colorizeTask cfg env (seedOf t) (idOf t) now t) =
      ts.length ∧
    (addedImages
        (ts.flatMap fun t => colorizeTask cfg env (seedOf t) (idOf t) now t)).map
        (fun i => i.prompt) =
      ts.map (fun t => "Colorized: " ++ t.prompt) ∧
    (callParamsOf
        (ts.flatMap fun t => colorizeTask cfg env (seedOf t) (idOf t) now t)).map
        (fun q => q.colorMode) =
      List.replicate ts.length ColorMode.color ∧
    (callParamsOf
        (ts.flatMap fun t => colorizeTask cfg env (seedOf t) (idOf t) now t)).map
        (fun q => q.transformType) =
      List.replicate ts.length (some TransformType.colorize) := by
  induction ts with
  | nil => simp [countAddImage, addedImages, callParamsOf]
  | cons t ts ih =>
      obtain ⟨ih1, ih2, ih3, ih4⟩ := ih
      have htask := colorizeTask_success cfg env (seedOf t) (idOf t) now t
        (url (colorizeParams cfg (seedOf t) t)) (um (colorizeParams cfg (seedOf t) t))
        (hgen (colorizeParams cfg (seedOf t) t)) hstop
      refine ⟨?_, ?_, ?_, ?_⟩ <;>
        simp [htask, ih1, ih2, ih3, ih4, countAddImage_append, addedImages_append,
          callParamsOf_append, countAddImage, addedImages, callParamsOf,
          colorizeParams, List.replicate_succ]

theorem decolorize_flat (cfg : GenerationConfig) (env : ExecEnv)
    (seedOf : GeneratedImage → Nat) (idOf : GeneratedImage → String) (now : Nat)
    (url um : JobParams → String)
    (hgen : ∀ q, env.gen q 0 = GenOutcome.ok (url q) (um q))
    (hstop : env.stop 0 = false) (ts : List GeneratedImage) :
    countAddImage
        (ts.flatMap fun t => decolorizeTask cfg env (seedOf t) (idOf t) now t) =
      ts.length ∧
    (addedImages
        (ts.flatMap fun t => decolorizeTask cfg env (seedOf t) (idOf t) now t)).map
        (fun i => i.prompt) =
      ts.map (fun t => "Line Art: " ++ t.prompt) ∧
    (callParamsOf
        (ts.flatMap fun t => decolorizeTask cfg env (seedOf t) (idOf t) now t)).map
        (fun q => q.colorMode) =
      List.replicate ts.length ColorMode.bw ∧
    (callParamsOf
        (ts.flatMap fun t => decolorizeTask cfg env (seedOf t) (idOf t) now t)).map
        (fun q => q.transformType) =
      List.replicate ts.length (some TransformType.decolorize) := by
  induction ts with
  | nil => simp [countAddImage, addedImages, callParamsOf]
  | cons t ts ih =>
      obtain ⟨ih1, ih2, ih3, ih4⟩ := ih
      have htask := decolorizeTask_success cfg env (seedOf t) (idOf t) now t
        (url (decolorizeParams cfg (seedOf t) t)) (um (decolorizeParams cfg (seedOf t) t))
        (hgen (decolorizeParams cfg (seedOf t) t)) hstop
      refine ⟨?_, ?_, ?_, ?_⟩ <;>
        simp [htask, ih1, ih2, ih3, ih4, countAddImage_append, addedImages_append,
          callParamsOf_append, countAddImage, addedImages, callParamsOf,
          decolorizeParams, List.replicate_succ]

/-- C9: Batch Colorize over a selection of `M` history entries with a
succeeding generation function produces exactly `M` new history entries, each
with prompt carrying "Colorized: " before the original, and every generation
call forced to colorMode `color` and transformType `colorize`; Batch
Decolorize is its mirror with "Line Art: ", `bw`, and `decolorize`. -/
theorem c9_batch_colorize_decolorize (cfg : GenerationConfig)
    (images : List GeneratedImage) (selectedIds : List String) (env : ExecEnv)
    (seedOf : GeneratedImage → Nat) (idOf : GeneratedImage → String) (now : Nat)
    (url um : JobParams → String)
    (hgen : ∀ q, env.gen q 0 = GenOutcome.ok (url q) (um q))
    (hstop : env.stop 0 = false) :
    (countAddImage (handleBatchColorize cfg images selectedIds env seedOf idOf now) =
       (images.filter fun img => selectedIds.contains img.id).length ∧
     (addedImages (handleBatchColorize cfg images selectedIds env seedOf idOf now)).map
         (fun i => i.prompt) =
       (images.filter fun img => selectedIds.contains img.id).map
         (fun t => "Colorized: " ++ t.prompt) ∧
     (callParamsOf (handleBatchColorize cfg images selectedIds env seedOf idOf now)).map
         (fun q => q.colorMode) =
       List.replicate (images.filter fun img => selectedIds.contains img.id).length
         ColorMode.color ∧
     (callParamsOf (handleBatchColorize cfg images selectedIds env seedOf idOf now)).map
         (fun q => q.transformType) =
       List.replicate (images.filter fun img => selectedIds.contains img.id).length
         (some TransformType.colorize)) ∧
    (countAddImage (handleBatchDecolorize cfg images selectedIds env seedOf idOf now) =
       (images.filter fun img => selectedIds.contains img.id).length ∧
     (addedImages (handleBatchDecolorize cfg images selectedIds env seedOf idOf now)).map
         (fun i => i.prompt) =
       (images.filter fun img => selectedIds.contains img.id).map
         (fun t => "Line Art: " ++ t.prompt) ∧
     (callParamsOf (handleBatchDecolorize cfg images selectedIds env seedOf idOf now)).map
         (fun q => q.colorMode) =
       List.replicate (images.filter fun img => selectedIds.contains img.id).length
         ColorMode.bw ∧
     (callParamsOf (handleBatchDecolorize cfg images selectedIds env seedOf idOf now)).map
         (fun q => q.transformType) =
       List.replicate (images.filter fun img => selectedIds.contains img.id).length
         (some TransformType.decolorize)) := by
  by_cases hsel : selectedIds.isEmpty
  · have hnil : selectedIds = [] := List.isEmpty_iff.mp hsel
    subst hnil
    have hfe : (images.filter fun img => ([] : List String).contains img.id) = [] := by
      induction images with
      | nil => rfl
      | cons i l ih => simpa using ih
    simp [handleBatchColorize, handleBatchDecolorize, hfe, countAddImage,
      addedImages, callParamsOf]
  · have hcol : handleBatchColorize cfg images selectedIds env seedOf idOf now =
        AppEv.log LogLevel.info
            ("Colorizing " ++ toString selectedIds.length ++ " images...") ::
          ((images.filter fun img => selectedIds.contains img.id).flatMap fun t =>
            colorizeTask cfg env (seedOf t) (idOf t) now t) := by
      simp only [handleBatchColorize]
      rw [if_neg hsel]
    have hdec : handleBatchDecolorize cfg images selectedIds env seedOf idOf now =
        AppEv.log LogLevel.info
            ("Decolorizing " ++ toString selectedIds.length ++ " images...") ::
          ((images.filter fun img => selectedIds.contains img.id).flatMap fun t =>
            decolorizeTask cfg env (seedOf t) (idOf t) now t) := by
      simp only [handleBatchDecolorize]
      rw [if_neg hsel]
    obtain ⟨h1, h2, h3, h4⟩ := colorize_flat cfg env seedOf idOf now url um hgen
      hstop (images.filter fun img => selectedIds.contains img.id)
    obtain ⟨g1, g2, g3, g4⟩ := decolorize_flat cfg env seedOf idOf now url um hgen
      hstop (images.filter fun img => selectedIds.contains img.id)
    rw [hcol, hdec]
    refine ⟨⟨?_, ?_, ?_, ?_⟩, ?_, ?_, ?_, ?_⟩
    · simpa [countAddImage] using h1
    · simpa [addedImages] using h2
    · simpa [callParamsOf] using h3
    · simpa [callParamsOf] using h4
    · simpa [countAddImage] using g1
    · simpa [addedImages] using g2
    · simpa [callParamsOf] using g3
    · simpa [callParamsOf] using g4

theorem c9_batch_colorize_decolorize_witness :
    (countAddImage
        (handleBatchColorize c9demoCfg [c9demoImage] ["img-9"] c9demoEnv
          (fun _ => 7) (fun _ => "img-new") 900) =
       ([c9demoImage].filter fun img => ["img-9"].contains img.id).length ∧
     (addedImages
        (handleBatchColorize c9demoCfg [c9demoImage] ["img-9"] c9demoEnv
          (fun _ => 7) (fun _ => "img-new") 900)).map (fun i => i.prompt) =
       ([c9demoImage].filter fun img => ["img-9"].contains img.id).map
         (fun t => "Colorized: " ++ t.prompt) ∧
     (callParamsOf
        (handleBatchColorize c9demoCfg [c9demoImage] ["img-9"] c9demoEnv
          (fun _ => 7) (fun _ => "img-new") 900)).map (fun q => q.colorMode) =
       List.replicate
         ([c9demoImage].filter fun img => ["img-9"].contains img.id).length
         ColorMode.color ∧
     (callParamsOf
        (handleBatchColorize c9demoCfg [c9demoImage] ["img-9"] c9demoEnv
          (fun _ => 7) (fun _ => "img-new") 900)).map (fun q => q.transformType) =
       List.replicate
         ([c9demoImage].filter fun img => ["img-9"].contains img.id).length
         (some TransformType.colorize)) ∧
    (countAddImage
        (handleBatchDecolorize c9demoCfg [c9demoImage] ["img-9"] c9demoEnv
          (fun _ => 7) (fun _ => "img-new") 900) =
       ([c9demoImage].filter fun img => ["img-9"].contains img.id).length ∧
     (addedImages
        (handleBatchDecolorize c9demoCfg [c9demoImage] ["img-9"] c9demoEnv
          (fun _ => 7) (fun _ => "img-new") 900)).map (fun i => i.prompt) =
       ([c9demoImage].filter fun img => ["img-9"].contains img.id).map
         (fun t => "Line Art: " ++ t.prompt) ∧
     (callParamsOf
        (handleBatchDecolorize c9demoCfg [c9demoImage] ["img-9"] c9demoEnv
          (fun _ => 7) (fun _ => "img-new") 900)).map (fun q => q.colorMode) =
       List.replicate
         ([c9demoImage].filter fun img => ["img-9"].contains img.id).length
         ColorMode.bw ∧
     (callParamsOf
        (handleBatchDecolorize c9demoCfg [c9demoImage] ["img-9"] c9demoEnv
          (fun _ => 7) (fun _ => "img-new") 900)).map (fun q => q.transformType) =
       List.replicate
         ([c9demoImage].filter fun img => ["img-9"].contains img.id).length
         (some TransformType.decolorize)) :=
  c9_batch_colorize_decolorize c9demoCfg [c9demoImage] ["img-9"] c9demoEnv
    (fun _ => 7) (fun _ => "img-new") 900
    (fun _ => "data:image/png;base64,bbb") (fun _ => "gemini-2.5-flash-image")
    (fun _ => rfl) rfl

end Coloring
